import Mathlib

/-
Verification of the nanoclaw host subsystem: the container-runtime
abstraction (src/container-runtime.ts), the Feishu channel collaborators
(src/channels/feishu.ts), and the per-tenant filesystem mailbox watcher
(src/ipc.ts; the watcher implementation itself is not part of the sources
available here, only its end-to-end tests are, so the watcher is modelled
from the specification and checked against the behaviour the tests pin
down).

External effects are made explicit: every CLI or HTTP call that can fail
is a parameter of type Except Unit _ (error = the call threw), and each
operation returns a plain result record, so exceptions escaping an
operation are representable only where the source lets them escape.
-/

/- ===== JavaScript string primitives, modelled on lists of characters =====
   The TypeScript source manipulates strings with split, startsWith, trim,
   includes, slice and join. These are re-implemented structurally so that
   concrete runs reduce inside the kernel. -/

/-- Split a character list at every occurrence of the separator, keeping
empty parts, as JavaScript split does. -/
def splitOnChar (c : Char) : List Char → List (List Char)
  | [] => [[]]
  | x :: xs =>
    match splitOnChar c xs with
    | [] => [[]]
    | p :: ps => if x = c then [] :: p :: ps else (x :: p) :: ps

/-- JavaScript s.split(sep) for a one-character separator. -/
def jsSplit (sep : Char) (s : String) : List String :=
  (splitOnChar sep s.data).map (fun l => ⟨l⟩)

/-- JavaScript s.startsWith(p). -/
def strStartsWith (s p : String) : Bool :=
  p.data.isPrefixOf s.data

/-- JavaScript s.trim: drop whitespace from both ends. -/
def jsTrim (s : String) : String :=
  ⟨((s.data.dropWhile Char.isWhitespace).reverse.dropWhile Char.isWhitespace).reverse⟩

/-- JavaScript s.slice(n) for a non-negative character index. -/
def strDrop (s : String) (n : Nat) : String := ⟨s.data.drop n⟩

/-- Whether pat occurs as a contiguous sublist. -/
def listContainsSub (pat : List Char) : List Char → Bool
  | [] => pat.isEmpty
  | x :: xs => pat.isPrefixOf (x :: xs) || listContainsSub pat xs

/-- JavaScript s.includes(pat) for a non-empty pattern. -/
def jsIncludes (s pat : String) : Bool := listContainsSub pat.data s.data

/-- JavaScript parts.join(sep). -/
def strJoin (sep : String) : List String → String
  | [] => ""
  | [x] => x
  | x :: xs => x ++ sep ++ strJoin sep xs

/- ===== Container runtime abstraction (src/container-runtime.ts) ===== -/

/-- The closed set of supported engines: type ContainerRuntime in the source. -/
inductive ContainerRuntime where
  | appleContainer
  | docker
deriving DecidableEq, Repr

/-- A CLI probe performed during runtime detection: execSync of the version
command of one of the two engines. -/
inductive CliProbe where
  | appleVersion
  | dockerVersion
deriving DecidableEq, Repr

/-- The ambient process state getRuntime reads: the CONTAINER_RUNTIME
environment variable (none = unset) and whether each version probe would
succeed. -/
structure RuntimeEnv where
  containerRuntimeVar : Option String
  appleProbeOk : Bool
  dockerProbeOk : Bool

/-- Result of one getRuntime call: the returned runtime or the thrown error
message, the cachedRuntime cell after the call, and the CLI probes that
were executed, in order. -/
structure RuntimeResolution where
  result : Except String ContainerRuntime
  cache : Option ContainerRuntime
  probes : List CliProbe

/-- The error message thrown for an invalid CONTAINER_RUNTIME value. -/
def invalidRuntimeMsg (s : String) : String :=
  "Invalid CONTAINER_RUNTIME=\"" ++ s ++ "\". Must be \"apple-container\" or \"docker\"."

/-- The error message thrown when no runtime is found. -/
def noRuntimeMsg : String :=
  "No container runtime found. Install Apple Container (macOS 26+) or Docker."

/-- The probing tail of getRuntime: try container --version, then
docker --version, else throw. -/
def probeRuntime (env : RuntimeEnv) : RuntimeResolution :=
  if env.appleProbeOk then
    { result := Except.ok ContainerRuntime.appleContainer,
      cache := some ContainerRuntime.appleContainer,
      probes := [CliProbe.appleVersion] }
  else if env.dockerProbeOk then
    { result := Except.ok ContainerRuntime.docker,
      cache := some ContainerRuntime.docker,
      probes := [CliProbe.appleVersion, CliProbe.dockerVersion] }
  else
    { result := Except.error noRuntimeMsg, cache := none,
      probes := [CliProbe.appleVersion, CliProbe.dockerVersion] }

/-- getRuntime from src/container-runtime.ts. The cached value is consulted
first; then the CONTAINER_RUNTIME variable (the JavaScript truthiness test
if (envRuntime) treats the empty string like an unset variable); an invalid
non-empty value throws before any probe runs; otherwise the probes run. -/
def getRuntime (env : RuntimeEnv) (cachedRuntime : Option ContainerRuntime) :
    RuntimeResolution :=
  match cachedRuntime with
  | some r => { result := Except.ok r, cache := some r, probes := [] }
  | none =>
    match env.containerRuntimeVar with
    | some envRuntime =>
      if envRuntime ≠ "" then
        if envRuntime ≠ "apple-container" ∧ envRuntime ≠ "docker" then
          { result := Except.error (invalidRuntimeMsg envRuntime),
            cache := none, probes := [] }
        else if envRuntime = "apple-container" then
          { result := Except.ok ContainerRuntime.appleContainer,
            cache := some ContainerRuntime.appleContainer, probes := [] }
        else
          { result := Except.ok ContainerRuntime.docker,
            cache := some ContainerRuntime.docker, probes := [] }
      else probeRuntime env
    | none => probeRuntime env

/-- VolumeMount from src/container-runtime.ts. -/
structure VolumeMount where
  hostPath : String
  containerPath : String
  readonly : Bool

/-- buildMountArg from src/container-runtime.ts, as a pure function of the
resolved runtime and the mount spec. -/
def buildMountArg (runtime : ContainerRuntime) (mount : VolumeMount) : List String :=
  match runtime with
  | ContainerRuntime.appleContainer =>
    if mount.readonly then
      ["--mount",
       "type=bind,source=" ++ mount.hostPath ++ ",target=" ++ mount.containerPath ++ ",readonly"]
    else
      ["-v", mount.hostPath ++ ":" ++ mount.containerPath]
  | ContainerRuntime.docker =>
    if mount.readonly then
      ["-v", mount.hostPath ++ ":" ++ mount.containerPath ++ ":ro"]
    else
      ["-v", mount.hostPath ++ ":" ++ mount.containerPath]

/-- Shape of one record in the apple-container ls --format json output. -/
structure AppleConfigView where
  id : String

/-- One parsed container record from apple-container: { status, configuration: { id } }. -/
structure AppleContainerRec where
  status : String
  configuration : AppleConfigView

/-- The normalized container descriptor RunningContainer: { name, status }. -/
structure RunningContainer where
  name : String
  status : String
deriving DecidableEq, Repr

/-- The argv passed to the docker binary by listRunningContainers. -/
def dockerPsArgs (pfx : String) : List String :=
  ["ps", "--filter", "name=" ++ pfx, "--format",
   "\x7b\x7b.Names\x7d\x7d\t\x7b\x7b.Status\x7d\x7d"]

/-- One line of docker ps output: name, then tab, then status (a status
containing tabs is re-joined, as the source destructuring does). -/
def parseDockerLine (line : String) : RunningContainer :=
  match jsSplit '\t' line with
  | [] => { name := "", status := "" }
  | name :: statusParts => { name := name, status := strJoin "\t" statusParts }

/-- Parse the whole docker ps output: trim, split on newlines, drop empty
lines, parse each line. -/
def parseDockerPs (output : String) : List RunningContainer :=
  ((jsSplit '\n' (jsTrim output)).filter (fun line => line.length > 0)).map parseDockerLine

/-- listRunningContainers from src/container-runtime.ts. The whole body is
wrapped in try/catch returning [] on any throw, so the CLI call is the
parameter appleResult (Except.error = execFileSync threw, Except.ok none =
the output was not parsable JSON and JSON.parse threw inside the same try)
resp. dockerResult (Except.error = execFileSync threw, otherwise the raw
output string, issued with dockerPsArgs pfx). -/
def listRunningContainers (runtime : ContainerRuntime) (pfx : String)
    (appleResult : Except Unit (Option (List AppleContainerRec)))
    (dockerResult : Except Unit String) : List RunningContainer :=
  match runtime with
  | ContainerRuntime.appleContainer =>
    match appleResult with
    | Except.error _ => []
    | Except.ok none => []
    | Except.ok (some containers) =>
      (containers.filter (fun c => strStartsWith c.configuration.id pfx)).map
        (fun c => { name := c.configuration.id, status := c.status })
  | ContainerRuntime.docker =>
    match dockerResult with
    | Except.error _ => []
    | Except.ok output => parseDockerPs output

/-- Observable outcome of cleanupOrphans: the names passed to stopContainer
(in listing order) and the logged count, if the count was logged. -/
structure CleanupOutcome where
  stopped : List String
  loggedCount : Option Nat

/-- cleanupOrphans from src/container-runtime.ts: list containers with the
nanoclaw- name filter, keep those whose status is running or starts with Up,
stop each, and log the count only when at least one was stopped. stopContainer
swallows its own errors, so no exception can escape. -/
def cleanupOrphans (runtime : ContainerRuntime)
    (appleResult : Except Unit (Option (List AppleContainerRec)))
    (dockerResult : Except Unit String) : CleanupOutcome :=
  let orphans := (listRunningContainers runtime "nanoclaw-" appleResult dockerResult).filter
    (fun c => c.status == "running" || strStartsWith c.status "Up")
  { stopped := orphans.map (fun c => c.name),
    loggedCount := if orphans.length > 0 then some orphans.length else none }

/- ===== Feishu channel collaborators (src/channels/feishu.ts) ===== -/

/-- Response headers of the messageResource.get call, as FeishuChannel.downloadMedia
reads them. dispositionName is the percent-decoded, quote-stripped filename
captured from the content-disposition header when the filename regex matches;
a decoding throw lands in the same catch as a request throw and is folded into
the Except.error response. -/
structure MediaRespHeaders where
  contentType : String
  dispositionName : Option String

/-- Suffix of a character list starting at its last dot, if any: the
origName.lastIndexOf and origName.slice pair in downloadMedia. -/
def extTail : List Char → Option (List Char)
  | [] => none
  | c :: cs =>
    match extTail cs with
    | some e => some e
    | none => if c = '.' then some (c :: cs) else none

/-- JavaScript dotIdx >= 0 ? origName.slice(dotIdx) : empty. -/
def extFromName (origName : String) : String :=
  match extTail origName.data with
  | some e => ⟨e⟩
  | none => ""

/-- The file extension FeishuChannel.downloadMedia chooses from the media type
and the response headers. -/
def downloadMediaExt (mediaType : Option String) (h : MediaRespHeaders) : String :=
  if mediaType = some "file" then
    match h.dispositionName with
    | some origName => extFromName origName
    | none =>
      if jsIncludes h.contentType "pdf" then ".pdf"
      else if jsIncludes h.contentType "zip" then ".zip"
      else if jsIncludes h.contentType "word" || jsIncludes h.contentType "docx" then ".docx"
      else if jsIncludes h.contentType "excel" || jsIncludes h.contentType "spreadsheet"
              || jsIncludes h.contentType "xlsx" then ".xlsx"
      else if jsIncludes h.contentType "powerpoint" || jsIncludes h.contentType "presentation"
              || jsIncludes h.contentType "pptx" then ".pptx"
      else ".bin"
  else
    if jsIncludes h.contentType "jpeg" || jsIncludes h.contentType "jpg" then ".jpg"
    else if jsIncludes h.contentType "gif" then ".gif"
    else if jsIncludes h.contentType "webp" then ".webp"
    else ".png"

/-- FeishuChannel.downloadMedia: fetch the platform resource (resp; error =
the API call threw), choose the extension, write requestId ++ ext into the
destination directory (writeResult; error = resp.writeFile threw), and return
the filename; every throw is caught and turned into none, so the operation
never rejects. The messageId and fileKey arguments only feed the external
call and the logs and are omitted. -/
def downloadMedia (requestId : String) (mediaType : Option String)
    (resp : Except Unit MediaRespHeaders) (writeResult : Except Unit Unit) :
    Option String :=
  match resp with
  | Except.error _ => none
  | Except.ok h =>
    match writeResult with
    | Except.error _ => none
    | Except.ok _ => some (requestId ++ downloadMediaExt mediaType h)

/-- The filenames downloadMedia has created in the destination directory when
it returns: exactly the returned filename on success, nothing on failure. -/
def downloadMediaWritten (requestId : String) (mediaType : Option String)
    (resp : Except Unit MediaRespHeaders) (writeResult : Except Unit Unit) :
    List String :=
  match resp, writeResult with
  | Except.ok h, Except.ok _ => [requestId ++ downloadMediaExt mediaType h]
  | _, _ => []

/-- Observable outcome of FeishuChannel.sendMessage: whether the message
reached the create call successfully and whether the catch logged an error. -/
structure SendMessageResult where
  sent : Bool
  errorLogged : Bool

/-- FeishuChannel.sendMessage: the whole body is wrapped in try/catch that
logs, so a failing im.message.create call (createResp = error) is logged and
never rethrown. -/
def sendMessage (createResp : Except Unit Unit) : SendMessageResult :=
  match createResp with
  | Except.error _ => { sent := false, errorLogged := true }
  | Except.ok _ => { sent := true, errorLogged := false }

/-- Observable outcome of FeishuChannel.sendImage: whether the image message
was sent, whether a caption follow-up message was dispatched, and whether
sendImage logged an error (either the missing image_key log or the catch). -/
structure SendImageResult where
  imageSent : Bool
  captionSent : Bool
  errorLogged : Bool

/-- FeishuChannel.sendImage: upload the image (uploadResp; error = the upload
threw, ok none = the response carried no image_key), then send the image
message (createResp), then send the caption as a follow-up message when the
caption is present and non-empty (JavaScript if (caption) truthiness). All
throws are caught and logged; a missing image_key logs an error and returns
before any message is sent. -/
def sendImage (caption : Option String) (uploadResp : Except Unit (Option String))
    (createResp : Except Unit Unit) : SendImageResult :=
  match uploadResp with
  | Except.error _ => { imageSent := false, captionSent := false, errorLogged := true }
  | Except.ok none => { imageSent := false, captionSent := false, errorLogged := true }
  | Except.ok (some _) =>
    match createResp with
    | Except.error _ => { imageSent := false, captionSent := false, errorLogged := true }
    | Except.ok _ =>
      { imageSent := true,
        captionSent := (match caption with
          | some c => !(c == "")
          | none => false),
        errorLogged := false }

/-- Observable outcome of FeishuChannel.sendFile. -/
structure SendFileResult where
  fileSent : Bool
  errorLogged : Bool

/-- FeishuChannel.sendFile: upload the file (uploadResp; ok none = no
file_key in the response), then send the file message (createResp); all
throws are caught and logged. -/
def sendFile (uploadResp : Except Unit (Option String))
    (createResp : Except Unit Unit) : SendFileResult :=
  match uploadResp with
  | Except.error _ => { fileSent := false, errorLogged := true }
  | Except.ok none => { fileSent := false, errorLogged := true }
  | Except.ok (some _) =>
    match createResp with
    | Except.error _ => { fileSent := false, errorLogged := true }
    | Except.ok _ => { fileSent := true, errorLogged := false }

/- ===== Mailbox watcher (src/ipc.ts — modelled from the spec) ===== -/

/-- A media_request file, parsed: { requestId, messageId, imageKey/fileKey,
chatJid }; chatJid may be absent. -/
structure MediaRequest where
  requestId : String
  messageId : String
  fileKey : String
  chatJid : Option String

/-- Observable outcome of processing one media_request file: whether the
download collaborator was invoked, the error marker written under media/
(filename, error text, messageId), how many times the request file was
deleted, and whether the missing-chatJid warning was logged. -/
structure MediaReqOutcome where
  downloadCalled : Bool
  errorFile : Option (String × String × String)
  deletedCount : Nat
  warnedMissing : Bool
deriving DecidableEq, Repr

/-- Modelled from the spec: the media-request phase of the mailbox watcher
(src/ipc.ts is not among the available sources; only its end-to-end tests
are). Per the spec: if chatJid is absent, write requestId.error with
{error: "Missing chatJid in request", messageId}, log a warning, delete the
request file, and do not contact any external service; otherwise invoke the
download collaborator (dl is its return value) — on a filename the request
file is deleted, on none write requestId.error with
{error: "Download failed", messageId} and delete the request file. Both
outcomes delete the request file exactly once. -/
def processMediaRequest (req : MediaRequest) (dl : Option String) : MediaReqOutcome :=
  match req.chatJid with
  | none =>
    { downloadCalled := false,
      errorFile := some (req.requestId ++ ".error", "Missing chatJid in request", req.messageId),
      deletedCount := 1,
      warnedMissing := true }
  | some _ =>
    match dl with
    | some _ =>
      { downloadCalled := true, errorFile := none, deletedCount := 1, warnedMissing := false }
    | none =>
      { downloadCalled := true,
        errorFile := some (req.requestId ++ ".error", "Download failed", req.messageId),
        deletedCount := 1,
        warnedMissing := false }

/-- Normalize the segments of an absolute path: drop empty and dot segments,
let dot-dot pop the previous segment and clamp at the root, as
path.resolve normalization does. -/
def normalizeSegs (segs : List String) : List String :=
  segs.foldl (fun acc seg =>
    if seg = "" ∨ seg = "." then acc
    else if seg = ".." then acc.dropLast
    else acc ++ [seg]) []

/-- The agent-side mailbox media directory referenced by image_message
filePath values. -/
def agentMediaDir : String := "/workspace/ipc/media/"

/-- Modelled from the spec: translate an image_message filePath (an
agent-relative path such as /workspace/ipc/media/name) to the host path under
the tenant media/ directory, given as its absolute-path segments, and
normalize the result. -/
def resolveImagePath (mediaSegs : List String) (filePath : String) : List String :=
  let rel := if strStartsWith filePath agentMediaDir
    then strDrop filePath agentMediaDir.length
    else filePath
  normalizeSegs (mediaSegs ++ jsSplit '/' rel)

/-- An image_message file, parsed: { chatJid, filePath, caption?, groupFolder,
timestamp }; the timestamp plays no role in processing. -/
structure ImageMessage where
  chatJid : String
  filePath : String
  caption : Option String
  groupFolder : String

/-- An invocation of the sendImage collaborator: destination jid, resolved
host path (as absolute-path segments), optional caption. -/
structure SendCall where
  jid : String
  hostPathSegs : List String
  caption : Option String
deriving DecidableEq, Repr

/-- Observable outcome of processing one image_message file: the send
collaborator call if one was made, the raw offending path of a logged
path-traversal warning, the (attempted destination, source tenant folder) of
a logged authorization warning, and how many times the message file was
deleted. -/
structure ImgOutcome where
  sent : Option SendCall
  traversalWarn : Option String
  unauthorizedWarn : Option (String × String)
  deletedCount : Nat
deriving DecidableEq, Repr

/-- Modelled from the spec: the outbound image_message phase of the mailbox
watcher (src/ipc.ts is not among the available sources). Path containment is
checked first: the resolved path must stay lexically inside the tenant media/
directory, else a security warning with the offending raw path is logged, the
file is deleted and nothing is sent. Then destination authorization: the main
tenant (groupFolder equal to the configured main folder) may target any
chatJid, any other tenant only its own registered jid (ownJid), else a
warning naming the attempted destination and the source tenant is logged, the
file is deleted and nothing is sent. If both checks pass the send
collaborator is invoked; the file is deleted in every case. -/
def processImageMessage (mainFolder ownJid : String) (mediaSegs : List String)
    (msg : ImageMessage) : ImgOutcome :=
  let resolved := resolveImagePath mediaSegs msg.filePath
  if mediaSegs.isPrefixOf resolved then
    if msg.groupFolder = mainFolder ∨ msg.chatJid = ownJid then
      { sent := some { jid := msg.chatJid, hostPathSegs := resolved, caption := msg.caption },
        traversalWarn := none, unauthorizedWarn := none, deletedCount := 1 }
    else
      { sent := none, traversalWarn := none,
        unauthorizedWarn := some (msg.chatJid, msg.groupFolder), deletedCount := 1 }
  else
    { sent := none, traversalWarn := some msg.filePath,
      unauthorizedWarn := none, deletedCount := 1 }

/- ===== Helper lemmas ===== -/

/-- Membership in the apple-container listing: exactly the parsed records
whose configuration id starts with the requested name parameter, normalized. -/
lemma mem_apple_list_iff (pfx : String) (recs : List AppleContainerRec)
    (d : Except Unit String) (x : RunningContainer) :
    x ∈ listRunningContainers ContainerRuntime.appleContainer pfx
        (Except.ok (some recs)) d ↔
      ∃ c, c ∈ recs ∧ strStartsWith c.configuration.id pfx = true ∧
        x = { name := c.configuration.id, status := c.status } := by
  simp only [listRunningContainers, List.mem_map, List.mem_filter]
  constructor
  · rintro ⟨c, ⟨hc, hp⟩, hx⟩
    exact ⟨c, hc, hp, hx.symm⟩
  · rintro ⟨c, hc, hp, hx⟩
    exact ⟨c, ⟨hc, hp⟩, hx.symm⟩

/-- Every descriptor returned by the apple-container listing has a name
starting with the requested name parameter. -/
lemma mem_apple_list_startsWith (pfx : String) (recs : List AppleContainerRec)
    (d : Except Unit String) (x : RunningContainer)
    (hx : x ∈ listRunningContainers ContainerRuntime.appleContainer pfx
      (Except.ok (some recs)) d) :
    strStartsWith x.name pfx = true := by
  obtain ⟨c, -, hp, rfl⟩ := (mem_apple_list_iff pfx recs d x).mp hx
  exact hp

/-- Membership in the stopped list of cleanupOrphans: exactly the names of
listed containers whose status is running or starts with Up. -/
lemma cleanupOrphans_stopped_iff (runtime : ContainerRuntime)
    (a : Except Unit (Option (List AppleContainerRec))) (d : Except Unit String)
    (n : String) :
    n ∈ (cleanupOrphans runtime a d).stopped ↔
      ∃ c, c ∈ listRunningContainers runtime "nanoclaw-" a d ∧ c.name = n ∧
        (c.status = "running" ∨ strStartsWith c.status "Up" = true) := by
  simp only [cleanupOrphans, List.mem_map, List.mem_filter, Bool.or_eq_true,
    beq_iff_eq]
  constructor
  · rintro ⟨c, ⟨hc, hst⟩, hn⟩
    exact ⟨c, hc, hn, hst⟩
  · rintro ⟨c, hc, hn, hst⟩
    exact ⟨c, ⟨hc, hst⟩, hn⟩

/-- The count is logged exactly when the stopped list is non-empty. -/
lemma cleanup_logged_iff (l : List RunningContainer) :
    (if l.length > 0 then some l.length else none).isSome = true ↔
      l.map (fun c => c.name) ≠ [] := by
  cases l <;> simp

/-- A successful getRuntime call stores its result in the cache. -/
lemma getRuntime_ok_cache (env : RuntimeEnv) (cached : Option ContainerRuntime)
    (r : ContainerRuntime) (h : (getRuntime env cached).result = Except.ok r) :
    (getRuntime env cached).cache = some r := by
  obtain ⟨v, ap, dp⟩ := env
  cases cached with
  | some r2 =>
    simp only [getRuntime, Except.ok.injEq] at h
    simp [getRuntime, h]
  | none =>
    cases v with
    | none =>
      cases ap <;> cases dp <;> simp_all [getRuntime, probeRuntime]
    | some s =>
      simp only [getRuntime] at h ⊢
      split_ifs at h ⊢ <;>
        (cases ap <;> cases dp <;> simp_all [probeRuntime])

/- ===== Claim theorems ===== -/

/-- Claim C1: for every image_message whose filePath, after normalization
against the tenant media/ directory, resolves outside that directory, the
send collaborator is never invoked, a security warning carrying the
offending raw path is logged, and the message file is deleted. -/
theorem ipc_image_path_traversal_blocked (mainFolder ownJid : String)
    (mediaSegs : List String) (msg : ImageMessage)
    (h : mediaSegs.isPrefixOf (resolveImagePath mediaSegs msg.filePath) = false) :
    processImageMessage mainFolder ownJid mediaSegs msg =
      { sent := none, traversalWarn := some msg.filePath,
        unauthorizedWarn := none, deletedCount := 1 } := by
  simp [processImageMessage, h]

/-- Claim C1 witness: the traversal payload from the end-to-end test, against
a tenant media directory data/ipc/test-group/media. -/
theorem ipc_image_path_traversal_blocked_witness :
    (["data", "ipc", "test-group", "media"].isPrefixOf
      (resolveImagePath ["data", "ipc", "test-group", "media"]
        "/workspace/ipc/media/../../../etc/passwd") = false) ∧
    processImageMessage "main" "chat1@feishu" ["data", "ipc", "test-group", "media"]
      { chatJid := "chat1@feishu", filePath := "/workspace/ipc/media/../../../etc/passwd",
        caption := none, groupFolder := "test-group" } =
      { sent := none, traversalWarn := some "/workspace/ipc/media/../../../etc/passwd",
        unauthorizedWarn := none, deletedCount := 1 } :=
  ⟨by decide,
   ipc_image_path_traversal_blocked "main" "chat1@feishu" _ _ (by decide)⟩

/-- Claim C2: with the path check passed, an image_message from a non-main
tenant to a chatJid other than its own invokes no send collaborator, logs a
warning naming the attempted destination and the source tenant, and deletes
the file; an image_message from the main tenant invokes the send
collaborator for any chatJid. -/
theorem ipc_image_destination_authorization (mainFolder ownJid : String)
    (mediaSegs : List String) (msg : ImageMessage)
    (h : mediaSegs.isPrefixOf (resolveImagePath mediaSegs msg.filePath) = true) :
    (msg.groupFolder ≠ mainFolder → msg.chatJid ≠ ownJid →
      processImageMessage mainFolder ownJid mediaSegs msg =
        { sent := none, traversalWarn := none,
          unauthorizedWarn := some (msg.chatJid, msg.groupFolder), deletedCount := 1 }) ∧
    (msg.groupFolder = mainFolder →
      processImageMessage mainFolder ownJid mediaSegs msg =
        { sent := some { jid := msg.chatJid,
                         hostPathSegs := resolveImagePath mediaSegs msg.filePath,
                         caption := msg.caption },
          traversalWarn := none, unauthorizedWarn := none, deletedCount := 1 }) := by
  constructor
  · intro h1 h2
    simp [processImageMessage, h, h1, h2]
  · intro h1
    simp [processImageMessage, h, h1]

/-- Claim C2 witness: the two scenarios of the end-to-end tests, a non-main
tenant targeting a foreign chat and the main tenant targeting any chat. -/
theorem ipc_image_destination_authorization_witness :
    processImageMessage "main" "chat1@feishu" ["data", "ipc", "test-group", "media"]
      { chatJid := "main-chat@feishu", filePath := "/workspace/ipc/media/image.png",
        caption := none, groupFolder := "test-group" } =
      { sent := none, traversalWarn := none,
        unauthorizedWarn := some ("main-chat@feishu", "test-group"), deletedCount := 1 } ∧
    processImageMessage "main" "main-chat@feishu" ["data", "ipc", "main", "media"]
      { chatJid := "chat1@feishu", filePath := "/workspace/ipc/media/admin-img.png",
        caption := none, groupFolder := "main" } =
      { sent := some { jid := "chat1@feishu",
                       hostPathSegs := ["data", "ipc", "main", "media", "admin-img.png"],
                       caption := none },
        traversalWarn := none, unauthorizedWarn := none, deletedCount := 1 } := by
  constructor
  · exact (ipc_image_destination_authorization "main" "chat1@feishu"
      ["data", "ipc", "test-group", "media"]
      { chatJid := "main-chat@feishu", filePath := "/workspace/ipc/media/image.png",
        caption := none, groupFolder := "test-group" }
      (by decide)).1 (by decide) (by decide)
  · have h := (ipc_image_destination_authorization "main" "main-chat@feishu"
      ["data", "ipc", "main", "media"]
      { chatJid := "chat1@feishu", filePath := "/workspace/ipc/media/admin-img.png",
        caption := none, groupFolder := "main" }
      (by decide)).2 rfl
    exact h.trans (by decide)

/-- Claim C3: for every media_request with a chatJid, the download
collaborator is invoked and the request file is deleted exactly once; when
the collaborator returns a filename, no error marker is written and (by the
collaborator contract proved on FeishuChannel.downloadMedia) the returned
filename has the form requestId ++ ext and is exactly the file the
collaborator created under media/; when it returns none, the marker
requestId.error with {error: "Download failed", messageId} is written. -/
theorem ipc_media_request_outcomes (req : MediaRequest) (j : String)
    (dl : Option String) (hj : req.chatJid = some j) :
    (processMediaRequest req dl).downloadCalled = true ∧
    (processMediaRequest req dl).deletedCount = 1 ∧
    (dl = none → (processMediaRequest req dl).errorFile =
      some (req.requestId ++ ".error", "Download failed", req.messageId)) ∧
    (∀ f, dl = some f → (processMediaRequest req dl).errorFile = none) ∧
    (∀ (mt : Option String) (h : MediaRespHeaders) (w : Except Unit Unit) (f : String),
      downloadMedia req.requestId mt (Except.ok h) w = some f →
        f = req.requestId ++ downloadMediaExt mt h ∧
        downloadMediaWritten req.requestId mt (Except.ok h) w = [f]) := by
  refine ⟨?_, ?_, ?_, ?_, ?_⟩
  · cases dl <;> simp [processMediaRequest, hj]
  · cases dl <;> simp [processMediaRequest, hj]
  · rintro rfl; simp [processMediaRequest, hj]
  · rintro f rfl; simp [processMediaRequest, hj]
  · intro mt h w f hdl
    cases w with
    | error e => simp [downloadMedia] at hdl
    | ok u =>
      simp only [downloadMedia, Option.some.injEq] at hdl
      exact ⟨hdl.symm, by simp [downloadMediaWritten, hdl]⟩

/-- Claim C3 witness: the scenario of the end-to-end tests at request r1,
with a failing download and with a successful png download. -/
theorem ipc_media_request_outcomes_witness :
    (processMediaRequest
      { requestId := "r1", messageId := "m1", fileKey := "k1",
        chatJid := some "chat1@feishu" } none).errorFile =
      some ("r1.error", "Download failed", "m1") ∧
    ("r1.png" = "r1" ++
        downloadMediaExt none { contentType := "image/png", dispositionName := none } ∧
      downloadMediaWritten "r1" none
        (Except.ok { contentType := "image/png", dispositionName := none })
        (Except.ok ()) = ["r1.png"]) := by
  have h := ipc_media_request_outcomes
    { requestId := "r1", messageId := "m1", fileKey := "k1", chatJid := some "chat1@feishu" }
    "chat1@feishu" none rfl
  exact ⟨(h.2.2.1 rfl).trans (by decide),
    h.2.2.2.2 none { contentType := "image/png", dispositionName := none }
      (Except.ok ()) "r1.png" (by decide)⟩

/-- Claim C4: for every media_request without a chatJid, the watcher writes
requestId.error containing {error: "Missing chatJid in request", messageId},
logs a warning, deletes the request file, and never invokes the download
collaborator. -/
theorem ipc_media_request_missing_chatJid (req : MediaRequest) (dl : Option String)
    (hj : req.chatJid = none) :
    processMediaRequest req dl =
      { downloadCalled := false,
        errorFile := some (req.requestId ++ ".error", "Missing chatJid in request",
          req.messageId),
        deletedCount := 1, warnedMissing := true } := by
  simp [processMediaRequest, hj]

/-- Claim C4 witness: the no-chatJid request of the end-to-end tests. -/
theorem ipc_media_request_missing_chatJid_witness :
    processMediaRequest
      { requestId := "r2", messageId := "m2", fileKey := "k2", chatJid := none } none =
      { downloadCalled := false,
        errorFile := some ("r2.error", "Missing chatJid in request", "m2"),
        deletedCount := 1, warnedMissing := true } :=
  (ipc_media_request_missing_chatJid
    { requestId := "r2", messageId := "m2", fileKey := "k2", chatJid := none }
    none rfl).trans (by decide)

/-- Claim C5: the collaborator operations never throw. Each is a total
function into a plain result record with no exception channel; downloadMedia
returns none on any internal failure (the resource call throwing, or the
file write throwing) and the filename it wrote on success, and the send
operations turn every failing branch into a logged error. -/
theorem feishu_collaborators_never_throw (rid : String) (mt : Option String)
    (h : MediaRespHeaders) (w : Except Unit Unit) (cap : Option String)
    (cr : Except Unit Unit) (k fn : String) :
    downloadMedia rid mt (Except.error ()) w = none ∧
    downloadMedia rid mt (Except.ok h) (Except.error ()) = none ∧
    downloadMedia rid mt (Except.ok h) (Except.ok ()) =
      some (rid ++ downloadMediaExt mt h) ∧
    downloadMediaWritten rid mt (Except.ok h) (Except.ok ()) =
      [rid ++ downloadMediaExt mt h] ∧
    sendMessage (Except.error ()) = { sent := false, errorLogged := true } ∧
    sendMessage (Except.ok ()) = { sent := true, errorLogged := false } ∧
    sendImage cap (Except.error ()) cr =
      { imageSent := false, captionSent := false, errorLogged := true } ∧
    sendImage cap (Except.ok (some k)) (Except.error ()) =
      { imageSent := false, captionSent := false, errorLogged := true } ∧
    sendFile (Except.error ()) cr = { fileSent := false, errorLogged := true } ∧
    sendFile (Except.ok (some fn)) (Except.error ()) =
      { fileSent := false, errorLogged := true } :=
  ⟨rfl, rfl, rfl, rfl, rfl, rfl, rfl, rfl, rfl, rfl⟩

/-- Claim C10: when the image upload step of sendImage yields a response
without an image_key, sendImage logs an error and returns without sending
the image message or any caption message, and no exception escapes. -/
theorem sendImage_missing_image_key (cap : Option String) (cr : Except Unit Unit) :
    sendImage cap (Except.ok none) cr =
      { imageSent := false, captionSent := false, errorLogged := true } :=
  rfl

/-- Claim C8: buildMountArg is a pure function of the resolved runtime and
the mount spec and produces, for every mount, the exact engine argv
fragment; instantiated at the literal vectors of the unit tests. -/
theorem buildMountArg_exact_args :
    (∀ m : VolumeMount,
      buildMountArg ContainerRuntime.appleContainer m =
        if m.readonly then
          ["--mount",
           "type=bind,source=" ++ m.hostPath ++ ",target=" ++ m.containerPath ++ ",readonly"]
        else ["-v", m.hostPath ++ ":" ++ m.containerPath]) ∧
    (∀ m : VolumeMount,
      buildMountArg ContainerRuntime.docker m =
        if m.readonly then ["-v", m.hostPath ++ ":" ++ m.containerPath ++ ":ro"]
        else ["-v", m.hostPath ++ ":" ++ m.containerPath]) ∧
    buildMountArg ContainerRuntime.appleContainer
      { hostPath := "/host/path", containerPath := "/container/path", readonly := true } =
      ["--mount", "type=bind,source=/host/path,target=/container/path,readonly"] ∧
    buildMountArg ContainerRuntime.appleContainer
      { hostPath := "/host/path", containerPath := "/container/path", readonly := false } =
      ["-v", "/host/path:/container/path"] ∧
    buildMountArg ContainerRuntime.docker
      { hostPath := "/host/path", containerPath := "/container/path", readonly := true } =
      ["-v", "/host/path:/container/path:ro"] ∧
    buildMountArg ContainerRuntime.docker
      { hostPath := "/host/path", containerPath := "/container/path", readonly := false } =
      ["-v", "/host/path:/container/path"] :=
  ⟨fun _ => rfl, fun _ => rfl, by decide, by decide, by decide, by decide⟩

/-- Claim C6 counterexample: CONTAINER_RUNTIME set to the empty string is a
value outside the closed set {apple-container, docker}, yet getRuntime does
not fail with a configuration error — the JavaScript truthiness test
if (envRuntime) treats the empty string like an unset variable, so probing
proceeds and, here, selects apple-container. -/
theorem getRuntime_empty_override_counterexample :
    ("" = "apple-container" → False) ∧ ("" = "docker" → False) ∧
    (getRuntime ⟨some "", true, true⟩ none).result =
      Except.ok ContainerRuntime.appleContainer ∧
    (getRuntime ⟨some "", true, true⟩ none).probes = [CliProbe.appleVersion] :=
  ⟨by decide, by decide, rfl, rfl⟩

/-- Claim C6 (amended: an override set to the empty string is treated as
unset): with no cached value, a non-empty override outside
{apple-container, docker} fails with the configuration error before any CLI
probe runs; with the override unset or empty, the apple-container version
probe runs first and selects apple-container on success, otherwise the
docker probe runs and selects docker on success, otherwise resolution fails
with the runtime-not-found error; a successful resolution fills the cache,
and any call that sees a cached value returns it with no probing,
regardless of the environment. -/
theorem getRuntime_resolution_order (env : RuntimeEnv) :
    (∀ s, env.containerRuntimeVar = some s → s ≠ "" → s ≠ "apple-container" →
      s ≠ "docker" →
      getRuntime env none =
        { result := Except.error (invalidRuntimeMsg s), cache := none, probes := [] }) ∧
    (env.containerRuntimeVar = none ∨ env.containerRuntimeVar = some "" →
      getRuntime env none = probeRuntime env) ∧
    (env.appleProbeOk = true →
      probeRuntime env =
        { result := Except.ok ContainerRuntime.appleContainer,
          cache := some ContainerRuntime.appleContainer,
          probes := [CliProbe.appleVersion] }) ∧
    (env.appleProbeOk = false → env.dockerProbeOk = true →
      probeRuntime env =
        { result := Except.ok ContainerRuntime.docker,
          cache := some ContainerRuntime.docker,
          probes := [CliProbe.appleVersion, CliProbe.dockerVersion] }) ∧
    (env.appleProbeOk = false → env.dockerProbeOk = false →
      probeRuntime env =
        { result := Except.error noRuntimeMsg, cache := none,
          probes := [CliProbe.appleVersion, CliProbe.dockerVersion] }) ∧
    (∀ r, (getRuntime env none).result = Except.ok r →
      (getRuntime env none).cache = some r) ∧
    (∀ (env2 : RuntimeEnv) (r : ContainerRuntime),
      getRuntime env2 (some r) =
        { result := Except.ok r, cache := some r, probes := [] }) := by
  refine ⟨?_, ?_, ?_, ?_, ?_, fun r => getRuntime_ok_cache env none r, fun _ _ => rfl⟩
  · intro s hs hne hna hnd
    simp [getRuntime, hs, hne, hna, hnd]
  · rintro (hv | hv) <;> simp [getRuntime, hv]
  · intro h1
    simp [probeRuntime, h1]
  · intro h1 h2
    simp [probeRuntime, h1, h2]
  · intro h1 h2
    simp [probeRuntime, h1, h2]

/-- Claim C6 witness: concrete resolutions — the podman override of the unit
tests fails before probing, an unset override with only docker available
probes apple then docker, and a cached docker value short-circuits. -/
theorem getRuntime_resolution_order_witness :
    getRuntime ⟨some "podman", true, true⟩ none =
      { result := Except.error (invalidRuntimeMsg "podman"), cache := none,
        probes := [] } ∧
    getRuntime ⟨none, false, true⟩ none =
      { result := Except.ok ContainerRuntime.docker,
        cache := some ContainerRuntime.docker,
        probes := [CliProbe.appleVersion, CliProbe.dockerVersion] } ∧
    getRuntime ⟨some "podman", false, false⟩ (some ContainerRuntime.docker) =
      { result := Except.ok ContainerRuntime.docker,
        cache := some ContainerRuntime.docker, probes := [] } := by
  refine ⟨(getRuntime_resolution_order ⟨some "podman", true, true⟩).1 "podman" rfl
    (by decide) (by decide) (by decide), ?_, ?_⟩
  · have h2 := (getRuntime_resolution_order ⟨none, false, true⟩).2.1 (Or.inl rfl)
    have h3 := (getRuntime_resolution_order ⟨none, false, true⟩).2.2.2.1 rfl rfl
    exact h2.trans h3
  · exact (getRuntime_resolution_order ⟨some "podman", false, false⟩).2.2.2.2.2.2 _
      ContainerRuntime.docker

/-- Claim C7: listRunningContainers is total and never throws — an engine
listing failure (the CLI call throwing, or apple-container output that does
not parse as JSON) yields the empty list; an apple-container success yields
exactly the parsed records whose name starts with the requested name
parameter, normalized to name/status descriptors; a docker success yields
the normalized parse (one descriptor per non-empty line, split at the first
tab) of the output that docker produced for the name filter dockerPsArgs
passes. -/
theorem listRunningContainers_total (pfx : String)
    (a : Except Unit (Option (List AppleContainerRec))) (d : Except Unit String)
    (recs : List AppleContainerRec) (out : String) :
    listRunningContainers ContainerRuntime.appleContainer pfx (Except.error ()) d = [] ∧
    listRunningContainers ContainerRuntime.appleContainer pfx (Except.ok none) d = [] ∧
    listRunningContainers ContainerRuntime.docker pfx a (Except.error ()) = [] ∧
    (∀ x, x ∈ listRunningContainers ContainerRuntime.appleContainer pfx
        (Except.ok (some recs)) d ↔
      ∃ c, c ∈ recs ∧ strStartsWith c.configuration.id pfx = true ∧
        x = { name := c.configuration.id, status := c.status }) ∧
    (∀ x, x ∈ listRunningContainers ContainerRuntime.appleContainer pfx
        (Except.ok (some recs)) d →
      strStartsWith x.name pfx = true) ∧
    listRunningContainers ContainerRuntime.docker pfx a (Except.ok out) =
      parseDockerPs out := by
  refine ⟨rfl, rfl, rfl, mem_apple_list_iff pfx recs d, ?_, rfl⟩
  intro x hx
  exact mem_apple_list_startsWith pfx recs d x hx

/-- Claim C7 witness: concrete listings — a throwing CLI yields the empty
list, and a membership extracted from the apple-container characterization
has the requested name parameter as a prefix of its name. -/
theorem listRunningContainers_total_witness :
    listRunningContainers ContainerRuntime.appleContainer "nanoclaw-"
      (Except.error ()) (Except.ok "") = [] ∧
    strStartsWith "nanoclaw-a" "nanoclaw-" = true := by
  have h := listRunningContainers_total "nanoclaw-"
    (Except.ok (some [{ status := "running", configuration := { id := "nanoclaw-a" } }]))
    (Except.ok "")
    [{ status := "running", configuration := { id := "nanoclaw-a" } }] ""
  refine ⟨h.1, h.2.2.2.2.1 { name := "nanoclaw-a", status := "running" } ?_⟩
  exact (h.2.2.2.1 _).mpr
    ⟨{ status := "running", configuration := { id := "nanoclaw-a" } },
     by simp, by decide, rfl⟩

/-- Claim C9: cleanupOrphans stops exactly those containers of the
nanoclaw- listing whose status is the string running or begins with Up,
logs the count only when at least one orphan was stopped, and (as a total
function into a result record) lets no exception escape; on the
apple-container engine every stopped name starts with nanoclaw-. -/
theorem cleanupOrphans_stops_running_orphans (runtime : ContainerRuntime)
    (a : Except Unit (Option (List AppleContainerRec))) (d : Except Unit String) :
    (∀ n, n ∈ (cleanupOrphans runtime a d).stopped ↔
      ∃ c, c ∈ listRunningContainers runtime "nanoclaw-" a d ∧ c.name = n ∧
        (c.status = "running" ∨ strStartsWith c.status "Up" = true)) ∧
    ((cleanupOrphans runtime a d).loggedCount.isSome = true ↔
      (cleanupOrphans runtime a d).stopped ≠ []) ∧
    (∀ recs, runtime = ContainerRuntime.appleContainer →
      a = Except.ok (some recs) →
      ∀ n ∈ (cleanupOrphans runtime a d).stopped,
        strStartsWith n "nanoclaw-" = true) := by
  refine ⟨cleanupOrphans_stopped_iff runtime a d, ?_, ?_⟩
  · exact cleanup_logged_iff
      ((listRunningContainers runtime "nanoclaw-" a d).filter
        (fun c => c.status == "running" || strStartsWith c.status "Up"))
  · rintro recs rfl rfl n hn
    obtain ⟨c, hc, rfl, -⟩ :=
      (cleanupOrphans_stopped_iff ContainerRuntime.appleContainer
        (Except.ok (some recs)) d n).mp hn
    exact mem_apple_list_startsWith "nanoclaw-" recs d c hc

/-- Claim C9 witness: a concrete mixed listing — the running and Up
containers are stopped, the created one is not, and the count is logged. -/
theorem cleanupOrphans_stops_running_orphans_witness :
    "nanoclaw-a" ∈ (cleanupOrphans ContainerRuntime.docker (Except.error ())
      (Except.ok "nanoclaw-a\tUp 5 minutes\nnanoclaw-b\tCreated\n")).stopped ∧
    ("nanoclaw-b" ∈ (cleanupOrphans ContainerRuntime.docker (Except.error ())
      (Except.ok "nanoclaw-a\tUp 5 minutes\nnanoclaw-b\tCreated\n")).stopped → False) := by
  have h := cleanupOrphans_stops_running_orphans ContainerRuntime.docker
    (Except.error ()) (Except.ok "nanoclaw-a\tUp 5 minutes\nnanoclaw-b\tCreated\n")
  constructor
  · exact (h.1 "nanoclaw-a").mpr
      ⟨{ name := "nanoclaw-a", status := "Up 5 minutes" }, by decide, rfl,
       Or.inr (by decide)⟩
  · intro hb
    exact absurd hb (by decide)
